import Mathlib

/-!
# Ally constant-product AMM routing engine — shallow embedding

This file embeds the AMM pricing and routing core of the Ally repository
(`packages/sdk/src/math.ts`, `packages/sdk/src/router.ts`, and the shared
`findDirectPool` / `getPoolReserves` logic of the two DEX adapters) into
Lean, and settles the specification claims about it.

Modelling conventions:

* The TypeScript code does all amount arithmetic through `Big.js`
  configured with `Big.DP = 18` (decimal places kept by `div`) and
  `Big.RM = Big.roundHalfUp` (round to nearest, ties away from zero).
  A `Big` value is an exact decimal number; we model it as a rational.
  `mul`, `add`, `sub` and integer `pow` are exact; `div` rounds the exact
  quotient to 18 decimal places with the configured rounding mode, and
  throws `"[big.js] Division by zero"` on a zero divisor.  `toFixed(0)`
  rounds to an integer with the configured rounding mode.
* Amount strings (`amountIn`, reserves, outputs) are decimal strings; we
  model them by their numeric values (integer strings as `ℤ`, general
  decimal strings as `ℚ`).  Canonical decimal strings are in bijection
  with the rationals they denote, so string equality is value equality.
* A thrown `Big.js` error is modelled as `none` / `Except.error`; the
  router's own `throw new Error('No routes found')` is a distinct error.
* `feePct` and `priceImpactPct` are JavaScript numbers in the source; the
  fee values that occur (e.g. `0.3`) and the arithmetic done on them are
  modelled exactly over `ℚ`.  The router's best-route comparison, which
  the source performs on `parseFloat` of the base-unit amount strings, is
  modelled by `parseFloatInt` (correct IEEE-754 binary64 rounding of an
  integer, which is always an integer for magnitudes below 2^1024).
* `Quote.timestamp` (`Date.now()`) is wall-clock time and is omitted.
-/

namespace Ally

/-- `Big.RM = Big.roundHalfUp`: round a rational to the nearest integer,
ties away from zero (Big.js rounding mode 1). -/
def roundHalfUp (x : ℚ) : ℤ :=
  if 0 ≤ x then ⌊x + 1/2⌋ else -⌊-x + 1/2⌋

/-- `Big.js` division with `Big.DP = 18`: the exact quotient rounded to 18
decimal places with `roundHalfUp`.  Only used with a nonzero divisor. -/
def bigDivRound (a b : ℚ) : ℚ :=
  (roundHalfUp (a / b * 10^18) : ℚ) / 10^18

/-- `Big.js` division as the source calls it: throws
`"[big.js] Division by zero"` (modelled as `none`) on a zero divisor. -/
def bigDiv (a b : ℚ) : Option ℚ :=
  if b = 0 then none else some (bigDivRound a b)

/-- `scaleAmount(amount, decimals)` from `math.ts`:
`new Big(amount).mul(new Big(10).pow(decimals)).toFixed(0)`.
`mul` and `pow` are exact; `toFixed(0)` rounds half-up to an integer. -/
def scaleAmount (amount : ℚ) (decimals : ℕ) : ℤ :=
  roundHalfUp (amount * 10^decimals)

/-- `unscaleAmount(amount, decimals)` from `math.ts`:
`new Big(amount).div(new Big(10).pow(decimals)).toFixed()`.
`div` rounds to 18 decimal places; `toFixed()` only prints the value. -/
def unscaleAmount (amount : ℚ) (decimals : ℕ) : ℚ :=
  bigDivRound amount (10^decimals)

/-- `getAmountOut(amountIn, reserveIn, reserveOut, feePct)` from `math.ts`:
```
const feeMultiplier = new Big(1000 - feePct * 10).div(1000);
const amountInWithFee = amountInBig.mul(feeMultiplier);
const numerator = amountInWithFee.mul(reserveOutBig);
const denominator = reserveInBig.mul(1000).add(amountInWithFee);
return numerator.div(denominator).toFixed(0);
```
There is no liquidity check of any kind; the only failure mode is the
`Big.js` division-by-zero throw when the denominator is zero (`none`). -/
def getAmountOut (amountIn reserveIn reserveOut : ℤ) (feePct : ℚ) : Option ℤ :=
  let feeMultiplier := bigDivRound (1000 - feePct * 10) 1000
  let amountInWithFee := (amountIn : ℚ) * feeMultiplier
  let numerator := amountInWithFee * (reserveOut : ℚ)
  let denominator := (reserveIn : ℚ) * 1000 + amountInWithFee
  if denominator = 0 then none
  else some (roundHalfUp (bigDivRound numerator denominator))

/-- `getPriceImpact(amountIn, reserveIn, reserveOut, feePct)` from `math.ts`:
mid price `reserveOut/reserveIn`, actual price `amountOut/amountIn`,
impact `(mid - actual)/mid * 100`.  Each `div` is a `Big.js` division and
throws on a zero divisor (zero `reserveIn`, zero `amountIn`, or zero mid
price, i.e. zero `reserveOut`); `none` models the throw.  The final
`.toNumber()` conversion is modelled as the exact value. -/
def getPriceImpact (amountIn reserveIn reserveOut : ℤ) (feePct : ℚ) : Option ℚ :=
  match getAmountOut amountIn reserveIn reserveOut feePct with
  | none => none
  | some amountOut =>
    match bigDiv (reserveOut : ℚ) (reserveIn : ℚ) with
    | none => none
    | some midPrice =>
      match bigDiv (amountOut : ℚ) (amountIn : ℚ) with
      | none => none
      | some actualPrice =>
        match bigDiv (midPrice - actualPrice) midPrice with
        | none => none
        | some priceImpact => some (priceImpact * 100)

/-- The per-hop argument record of `calculateTwoHopAmountOut` /
`calculateTwoHopPriceImpact` (`{reserveIn, reserveOut, feePct}`). -/
structure HopPool where
  reserveIn : ℤ
  reserveOut : ℤ
  feePct : ℚ
deriving DecidableEq, Repr, Inhabited

/-- `calculateTwoHopAmountOut` from `math.ts`: hop 1's output fed as hop
2's input, with no extra rounding beyond each hop's own. -/
def calculateTwoHopAmountOut (amountIn : ℤ) (firstHop secondHop : HopPool) : Option ℤ :=
  match getAmountOut amountIn firstHop.reserveIn firstHop.reserveOut firstHop.feePct with
  | none => none
  | some firstHopOut =>
    getAmountOut firstHopOut secondHop.reserveIn secondHop.reserveOut secondHop.feePct

/-- `calculateTwoHopPriceImpact` from `math.ts`: effective mid price is the
product of the hop mid prices; impact as in the single-hop case. -/
def calculateTwoHopPriceImpact (amountIn : ℤ) (firstHop secondHop : HopPool) : Option ℚ :=
  match calculateTwoHopAmountOut amountIn firstHop secondHop with
  | none => none
  | some amountOut =>
    match bigDiv (firstHop.reserveOut : ℚ) (firstHop.reserveIn : ℚ) with
    | none => none
    | some firstHopMidPrice =>
      match bigDiv (secondHop.reserveOut : ℚ) (secondHop.reserveIn : ℚ) with
      | none => none
      | some secondHopMidPrice =>
        let effectiveMidPrice := firstHopMidPrice * secondHopMidPrice
        match bigDiv (amountOut : ℚ) (amountIn : ℚ) with
        | none => none
        | some actualPrice =>
          match bigDiv (effectiveMidPrice - actualPrice) effectiveMidPrice with
          | none => none
          | some priceImpact => some (priceImpact * 100)

/-! ## Data model (`packages/sdk/src/types.ts`, shapes as used by the code
and by the router unit test) -/

/-- `Token` — `{address, symbol, decimals, name}`. -/
structure Token where
  address : String
  symbol : String
  decimals : ℕ
  name : String
deriving DecidableEq, Repr, Inhabited

/-- The DEX tags of the two registered adapters (`HumbleAdapter.name`,
`PactAdapter.name`). -/
inductive DexName
  | HUMBLE
  | PACT
deriving DecidableEq, BEq, Repr, Inhabited

/-- The tag's string form, as interpolated into route labels. -/
def DexName.label : DexName → String
  | .HUMBLE => "HUMBLE"
  | .PACT => "PACT"

/-- `Pool` — `{id, dex, tokenA, tokenB, reserveA, reserveB, feePct}` with
the reserves integer base-unit strings. -/
structure Pool where
  id : String
  dex : DexName
  tokenA : Token
  tokenB : Token
  reserveA : ℤ
  reserveB : ℤ
  feePct : ℚ
deriving DecidableEq, Repr, Inhabited

/-- `findDirectPool(from, to, pools)` — identical in both adapters:
`pools.find(...)` matching the ordered pair in either direction, `null`
(here `none`) when absent. -/
def findDirectPool (fromAddr toAddr : String) (pools : List Pool) : Option Pool :=
  pools.find? (fun pool =>
    (pool.tokenA.address == fromAddr && pool.tokenB.address == toAddr) ||
    (pool.tokenA.address == toAddr && pool.tokenB.address == fromAddr))

/-- The `{reserveIn, reserveOut}` record of `getPoolReserves`. -/
structure Reserves where
  reserveIn : ℤ
  reserveOut : ℤ
deriving DecidableEq, Repr, Inhabited

/-- `getPoolReserves(pool, tokenIn)` — orients the reserves by whether
`tokenIn` is the pool's `tokenA`. -/
def getPoolReserves (pool : Pool) (tokenIn : String) : Reserves :=
  if pool.tokenA.address == tokenIn then ⟨pool.reserveA, pool.reserveB⟩
  else ⟨pool.reserveB, pool.reserveA⟩

/-- Route type tag — `'DIRECT' | 'TWO_HOP'`. -/
inductive RouteType
  | DIRECT
  | TWO_HOP
deriving DecidableEq, BEq, Repr, Inhabited

/-- One step of a `Route`. -/
structure RouteStep where
  dex : DexName
  fromToken : String
  toToken : String
  poolId : String
  amountIn : ℤ
  amountOut : ℤ
deriving DecidableEq, Repr, Inhabited

/-- `feesEstimated` — only `lpFeePct` is ever populated by this router. -/
structure FeesEstimated where
  lpFeePct : ℚ
deriving DecidableEq, Repr, Inhabited

/-- `Route` as built by `quoteDirect` / `quoteTwoHop` / `quoteCrossDexTwoHop`. -/
structure Route where
  steps : List RouteStep
  totalAmountOut : ℤ
  priceImpactPct : ℚ
  feesEstimated : FeesEstimated
  routeType : RouteType
deriving DecidableEq, Repr, Inhabited

/-- One entry of `Quote.path`. -/
structure PathStep where
  dex : DexName
  fromToken : String
  toToken : String
  poolId : String
deriving DecidableEq, Repr, Inhabited

/-- One entry of `Quote.comparedRoutes`. -/
structure ComparedRoute where
  label : String
  amountOut : ℚ
  routeType : RouteType
deriving DecidableEq, Repr, Inhabited

/-- `Quote` as assembled by `getBestQuote` (`timestamp: Date.now()` is
wall-clock time and omitted from the embedding). -/
structure Quote where
  amountIn : ℚ
  amountOut : ℚ
  path : List PathStep
  priceImpactPct : ℚ
  feesEstimated : FeesEstimated
  warnings : List String
  routeType : RouteType
  comparedRoutes : List ComparedRoute
deriving DecidableEq, Repr, Inhabited

/-- The two ways a `getBestQuote` call can throw: a `Big.js`
`"Division by zero"` escaping from the pricing math, and the router's own
`throw new Error('No routes found')`. -/
inductive JsError
  | divisionByZero
  | noRoutesFound
deriving DecidableEq, Repr, Inhabited

/-! ## Router (`packages/sdk/src/router.ts`)

The `Router` constructor registers `[new HumbleAdapter(), new PactAdapter()]`
and fixes `commonTokens = ['VOI', 'USDC']`.  `getBestQuote` first gathers
the pools of every adapter into `allPools`; the embedding takes that merged
snapshot as an argument (the adapters' `fetchPools` is file/network I/O). -/

/-- The adapter registry, in construction order. -/
def adapters : List DexName := [DexName.HUMBLE, DexName.PACT]

/-- `commonTokens` — the allowed intermediate tokens for two-hop routes. -/
def commonTokens : List String := ["VOI", "USDC"]

/-- `Router.quoteDirect(adapter, from, to, amountIn, allPools)`.  Note the
hard-coded `scaleAmount(amountIn, 6) // Assuming 6 decimals` and that a
`Big.js` division-by-zero in the pricing math escapes as an exception. -/
def quoteDirect (adapter : DexName) (fromAddr toAddr : String) (amountIn : ℚ)
    (allPools : List Pool) : Except JsError (Option Route) :=
  let pools := allPools.filter (fun pool => pool.dex == adapter)
  match findDirectPool fromAddr toAddr pools with
  | none => .ok none
  | some pool =>
    let scaledAmountIn := scaleAmount amountIn 6
    let reserves := getPoolReserves pool fromAddr
    match getAmountOut scaledAmountIn reserves.reserveIn reserves.reserveOut pool.feePct with
    | none => .error .divisionByZero
    | some amountOut =>
      match getPriceImpact scaledAmountIn reserves.reserveIn reserves.reserveOut pool.feePct with
      | none => .error .divisionByZero
      | some priceImpact =>
        .ok (some {
          steps := [{ dex := adapter, fromToken := fromAddr, toToken := toAddr,
                      poolId := pool.id, amountIn := scaledAmountIn, amountOut := amountOut }],
          totalAmountOut := amountOut,
          priceImpactPct := priceImpact,
          feesEstimated := { lpFeePct := pool.feePct },
          routeType := .DIRECT })

/-- The loop body of `Router.quoteTwoHop`: walk the adapter registry, and
on the FIRST adapter carrying both legs price the route and `return`;
adapters with a missing leg are skipped (`continue`). -/
def quoteTwoHopAux (fromAddr intermediate toAddr : String) (amountIn : ℚ)
    (allPools : List Pool) : List DexName → Except JsError (Option Route)
  | [] => .ok none
  | adapter :: rest =>
    let pools := allPools.filter (fun pool => pool.dex == adapter)
    match findDirectPool fromAddr intermediate pools,
          findDirectPool intermediate toAddr pools with
    | some firstPool, some secondPool =>
      let scaledAmountIn := scaleAmount amountIn 6
      let firstReserves := getPoolReserves firstPool fromAddr
      let secondReserves := getPoolReserves secondPool intermediate
      match getAmountOut scaledAmountIn firstReserves.reserveIn firstReserves.reserveOut
          firstPool.feePct with
      | none => .error .divisionByZero
      | some firstHopOut =>
        match getAmountOut firstHopOut secondReserves.reserveIn secondReserves.reserveOut
            secondPool.feePct with
        | none => .error .divisionByZero
        | some secondHopOut =>
          match calculateTwoHopPriceImpact scaledAmountIn
              ⟨firstReserves.reserveIn, firstReserves.reserveOut, firstPool.feePct⟩
              ⟨secondReserves.reserveIn, secondReserves.reserveOut, secondPool.feePct⟩ with
          | none => .error .divisionByZero
          | some priceImpact =>
            .ok (some {
              steps := [
                { dex := adapter, fromToken := fromAddr, toToken := intermediate,
                  poolId := firstPool.id, amountIn := scaledAmountIn, amountOut := firstHopOut },
                { dex := adapter, fromToken := intermediate, toToken := toAddr,
                  poolId := secondPool.id, amountIn := firstHopOut, amountOut := secondHopOut }],
              totalAmountOut := secondHopOut,
              priceImpactPct := priceImpact,
              feesEstimated := { lpFeePct := (firstPool.feePct + secondPool.feePct) / 2 },
              routeType := .TWO_HOP })
    | _, _ => quoteTwoHopAux fromAddr intermediate toAddr amountIn allPools rest

/-- `Router.quoteTwoHop(from, intermediate, to, amountIn, allPools)`. -/
def quoteTwoHop (fromAddr intermediate toAddr : String) (amountIn : ℚ)
    (allPools : List Pool) : Except JsError (Option Route) :=
  quoteTwoHopAux fromAddr intermediate toAddr amountIn allPools adapters

/-- The ordered pairs `(adapters[i], adapters[j])`, `i ≠ j`, in the nested
loop order of `Router.quoteCrossDexTwoHop`. -/
def crossDexPairs : List (DexName × DexName) :=
  adapters.flatMap (fun firstAdapter =>
    (adapters.filter (fun secondAdapter => !(firstAdapter == secondAdapter))).map
      (fun secondAdapter => (firstAdapter, secondAdapter)))

/-- The loop body of `Router.quoteCrossDexTwoHop`: walk the ordered adapter
pairs and `return` the FIRST pair where leg 1 exists on the first adapter
and leg 2 on the second. -/
def quoteCrossDexAux (fromAddr intermediate toAddr : String) (amountIn : ℚ)
    (allPools : List Pool) : List (DexName × DexName) → Except JsError (Option Route)
  | [] => .ok none
  | (firstAdapter, secondAdapter) :: rest =>
    let firstPools := allPools.filter (fun pool => pool.dex == firstAdapter)
    let secondPools := allPools.filter (fun pool => pool.dex == secondAdapter)
    match findDirectPool fromAddr intermediate firstPools,
          findDirectPool intermediate toAddr secondPools with
    | some firstPool, some secondPool =>
      let scaledAmountIn := scaleAmount amountIn 6
      let firstReserves := getPoolReserves firstPool fromAddr
      let secondReserves := getPoolReserves secondPool intermediate
      match getAmountOut scaledAmountIn firstReserves.reserveIn firstReserves.reserveOut
          firstPool.feePct with
      | none => .error .divisionByZero
      | some firstHopOut =>
        match getAmountOut firstHopOut secondReserves.reserveIn secondReserves.reserveOut
            secondPool.feePct with
        | none => .error .divisionByZero
        | some secondHopOut =>
          match calculateTwoHopPriceImpact scaledAmountIn
              ⟨firstReserves.reserveIn, firstReserves.reserveOut, firstPool.feePct⟩
              ⟨secondReserves.reserveIn, secondReserves.reserveOut, secondPool.feePct⟩ with
          | none => .error .divisionByZero
          | some priceImpact =>
            .ok (some {
              steps := [
                { dex := firstAdapter, fromToken := fromAddr, toToken := intermediate,
                  poolId := firstPool.id, amountIn := scaledAmountIn, amountOut := firstHopOut },
                { dex := secondAdapter, fromToken := intermediate, toToken := toAddr,
                  poolId := secondPool.id, amountIn := firstHopOut, amountOut := secondHopOut }],
              totalAmountOut := secondHopOut,
              priceImpactPct := priceImpact,
              feesEstimated := { lpFeePct := (firstPool.feePct + secondPool.feePct) / 2 },
              routeType := .TWO_HOP })
    | _, _ => quoteCrossDexAux fromAddr intermediate toAddr amountIn allPools rest

/-- `Router.quoteCrossDexTwoHop(from, intermediate, to, amountIn, allPools)`. -/
def quoteCrossDexTwoHop (fromAddr intermediate toAddr : String) (amountIn : ℚ)
    (allPools : List Pool) : Except JsError (Option Route) :=
  quoteCrossDexAux fromAddr intermediate toAddr amountIn allPools crossDexPairs

/-- Step 1 of `getBestQuote`: direct candidates, one attempt per adapter in
registry order; an exception from `quoteDirect` aborts the whole call. -/
def directRoutes (fromAddr toAddr : String) (amountIn : ℚ) (allPools : List Pool) :
    List DexName → Except JsError (List Route)
  | [] => .ok []
  | adapter :: rest =>
    match quoteDirect adapter fromAddr toAddr amountIn allPools with
    | .error e => .error e
    | .ok route =>
      match directRoutes fromAddr toAddr amountIn allPools rest with
      | .error e => .error e
      | .ok routes =>
        match route with
        | some r => .ok (r :: routes)
        | none => .ok routes

/-- Step 2 of `getBestQuote`: same-DEX two-hop candidates, one `quoteTwoHop`
attempt per common intermediate token that differs from both endpoints. -/
def twoHopRoutes (fromAddr toAddr : String) (amountIn : ℚ) (allPools : List Pool) :
    List String → Except JsError (List Route)
  | [] => .ok []
  | intermediate :: rest =>
    if intermediate == fromAddr || intermediate == toAddr then
      twoHopRoutes fromAddr toAddr amountIn allPools rest
    else
      match quoteTwoHop fromAddr intermediate toAddr amountIn allPools with
      | .error e => .error e
      | .ok route =>
        match twoHopRoutes fromAddr toAddr amountIn allPools rest with
        | .error e => .error e
        | .ok routes =>
          match route with
          | some r => .ok (r :: routes)
          | none => .ok routes

/-- Step 3 of `getBestQuote`: cross-DEX two-hop candidates, one
`quoteCrossDexTwoHop` attempt per eligible common intermediate token. -/
def crossDexRoutes (fromAddr toAddr : String) (amountIn : ℚ) (allPools : List Pool) :
    List String → Except JsError (List Route)
  | [] => .ok []
  | intermediate :: rest =>
    if intermediate == fromAddr || intermediate == toAddr then
      crossDexRoutes fromAddr toAddr amountIn allPools rest
    else
      match quoteCrossDexTwoHop fromAddr intermediate toAddr amountIn allPools with
      | .error e => .error e
      | .ok route =>
        match crossDexRoutes fromAddr toAddr amountIn allPools rest with
        | .error e => .error e
        | .ok routes =>
          match route with
          | some r => .ok (r :: routes)
          | none => .ok routes

/-- The candidate list of one `getBestQuote` call, in enumeration order:
direct, then same-DEX two-hop, then cross-DEX two-hop. -/
def enumerateRoutes (fromAddr toAddr : String) (amountIn : ℚ) (allPools : List Pool) :
    Except JsError (List Route) :=
  match directRoutes fromAddr toAddr amountIn allPools adapters with
  | .error e => .error e
  | .ok direct =>
    match twoHopRoutes fromAddr toAddr amountIn allPools commonTokens with
    | .error e => .error e
    | .ok sameDex =>
      match crossDexRoutes fromAddr toAddr amountIn allPools commonTokens with
      | .error e => .error e
      | .ok crossDex => .ok (direct ++ sameDex ++ crossDex)

/-- Fuel-bounded binary length (number of binary digits); structural so
that the kernel can evaluate it. -/
def bitLenAux : ℕ → ℕ → ℕ
  | 0, _ => 0
  | fuel + 1, n => if n = 0 then 0 else bitLenAux fuel (n / 2) + 1

/-- Binary length of `n`.  1100 halvings cover every magnitude below the
IEEE-754 binary64 overflow threshold of 2^1024, the only range where the
`parseFloat` model below is meaningful. -/
def bitLen (n : ℕ) : ℕ := bitLenAux 1100 n

/-- The IEEE-754 binary64 value nearest to `n` (round half to even at 53
significant bits).  For every magnitude this file evaluates it at, the
result is exact far below the overflow threshold of 2^1024. -/
def float64OfNat (n : ℕ) : ℕ :=
  if n < 2^53 then n
  else
    let k := bitLen n - 53
    let q := n / 2^k
    let r := n % 2^k
    let half := 2^(k - 1)
    let rounded := if half < r then q + 1 else if r < half then q else if q % 2 = 0 then q else q + 1
    rounded * 2^k

/-- `parseFloat` applied to the decimal string of an integer, as in the
router's best-route comparison: the nearest binary64 value (an integer for
these magnitudes). -/
def parseFloatInt (n : ℤ) : ℤ :=
  if 0 ≤ n then (float64OfNat n.toNat : ℤ) else -(float64OfNat (-n).toNat : ℤ)

/-- The selection step of `getBestQuote`:
`routes.reduce((best, current) => parseFloat(current.totalAmountOut) >
parseFloat(best.totalAmountOut) ? current : best)` — a left fold that
keeps the incumbent on `parseFloat` ties. -/
def reduceBest (first : Route) (rest : List Route) : Route :=
  rest.foldl (fun best current =>
    if parseFloatInt best.totalAmountOut < parseFloatInt current.totalAmountOut
    then current else best) first

/-- `[...new Set(route.steps.map(step => step.dex))]` — the step DEX tags,
deduplicated, first occurrence order. -/
def uniqueDexes (steps : List RouteStep) : List DexName :=
  (steps.map (fun step => step.dex)).foldl
    (fun acc d => if acc.contains d then acc else acc ++ [d]) []

/-- `Router.getRouteLabel`. -/
def getRouteLabel (route : Route) : String :=
  match route.routeType with
  | .DIRECT => (route.steps.headD default).dex.label ++ " Direct"
  | .TWO_HOP =>
    match uniqueDexes route.steps with
    | [d] => d.label ++ " Two-Hop"
    | ds => "Cross-DEX (" ++ String.intercalate " → " (ds.map DexName.label) ++ ")"

/-- `Router.generateWarnings`. -/
def generateWarnings (route : Route) : List String :=
  (if 5 < route.priceImpactPct then ["High price impact detected"] else []) ++
  (if 1 < route.steps.length then ["Multi-hop route may have higher slippage"] else [])

/-- `Router.getBestQuote(from, to, amountIn, slippageBps)` over a merged
pool snapshot.  Enumerates candidates, throws `'No routes found'` on an
empty candidate list, selects via the `parseFloat` reduce, and builds the
`Quote` with the hard-coded `unscaleAmount(..., 6) // Assuming 6 decimals`.
`slippageBps` is accepted but never read, exactly as in the source. -/
def getBestQuote (fromAddr toAddr : String) (amountIn : ℚ) (slippageBps : ℤ)
    (allPools : List Pool) : Except JsError Quote :=
  match enumerateRoutes fromAddr toAddr amountIn allPools with
  | .error e => .error e
  | .ok [] => .error .noRoutesFound
  | .ok (first :: rest) =>
    let bestRoute := reduceBest first rest
    let comparedRoutes := (first :: rest).map (fun route =>
      { label := getRouteLabel route,
        amountOut := unscaleAmount (route.totalAmountOut : ℚ) 6,
        routeType := route.routeType : ComparedRoute })
    .ok {
      amountIn := amountIn,
      amountOut := unscaleAmount (bestRoute.totalAmountOut : ℚ) 6,
      path := bestRoute.steps.map (fun step =>
        { dex := step.dex, fromToken := step.fromToken,
          toToken := step.toToken, poolId := step.poolId }),
      priceImpactPct := bestRoute.priceImpactPct,
      feesEstimated := bestRoute.feesEstimated,
      warnings := generateWarnings bestRoute,
      routeType := bestRoute.routeType,
      comparedRoutes := comparedRoutes }

/-! ## Claim-side definitions

`priceImpactExact` follows the specification's ideal-arithmetic reading of
§4.2 (no 18-decimal-place intermediate rounding, no rounding of the output
to a whole base unit); it is the reference point for the amended C7.
`setPoolDecimals` changes every token's `decimals` field, the quantity
claim C4 says the router consults. -/

/-- The exact (unrounded) price impact of §4.2 of the specification:
`effectiveIn = amountIn·(1000 − feePct·10)/1000`,
`amountOut = effectiveIn·reserveOut/(reserveIn·1000 + effectiveIn)`,
`impact = (midPrice − amountOut/amountIn)/midPrice · 100` — the same
formula as `getPriceImpact` but over exact rationals throughout. -/
def priceImpactExact (amountIn reserveIn reserveOut : ℤ) (feePct : ℚ) : ℚ :=
  let effectiveIn := (amountIn : ℚ) * ((1000 - feePct * 10) / 1000)
  let amountOut := effectiveIn * (reserveOut : ℚ) / ((reserveIn : ℚ) * 1000 + effectiveIn)
  let midPrice := (reserveOut : ℚ) / (reserveIn : ℚ)
  let actualPrice := amountOut / (amountIn : ℚ)
  (midPrice - actualPrice) / midPrice * 100

/-- Replace a token's decimal precision. -/
def setDecimals (d : ℕ) (t : Token) : Token := { t with decimals := d }

/-- Replace the decimal precision of both of a pool's tokens. -/
def setPoolDecimals (d : ℕ) (p : Pool) : Pool :=
  { p with tokenA := setDecimals d p.tokenA, tokenB := setDecimals d p.tokenB }

/-! ## Concrete scenario data for the claims -/

/-- A 6-decimal VOI token as in the repository's mock data. -/
def tokenVOI : Token := { address := "VOI", symbol := "VOI", decimals := 6, name := "Voi" }

/-- A 6-decimal USDC token as in the repository's mock data. -/
def tokenUSDC : Token :=
  { address := "USDC", symbol := "USDC", decimals := 6, name := "USD Coin" }

/-- An 18-decimal token (the data model allows any `decimals ≥ 0`). -/
def tokenTKA : Token := { address := "TKA", symbol := "TKA", decimals := 18, name := "Token A" }

/-- A second 18-decimal token. -/
def tokenTKB : Token := { address := "TKB", symbol := "TKB", decimals := 18, name := "Token B" }

/-- C2's failing input: a HUMBLE VOI/USDC pool whose `reserveA` is zero. -/
def zeroPool : Pool :=
  { id := "humble-voi-usdc", dex := .HUMBLE, tokenA := tokenVOI, tokenB := tokenUSDC,
    reserveA := 0, reserveB := 1000000, feePct := 3/10 }

/-- C9's pool: an ordinary HUMBLE VOI/USDC pool with healthy reserves. -/
def negPool : Pool :=
  { id := "humble-voi-usdc", dex := .HUMBLE, tokenA := tokenVOI, tokenB := tokenUSDC,
    reserveA := 1000000, reserveB := 1000000, feePct := 3/10 }

/-- The route the router builds for `getBestQuote("VOI","USDC","-1",50)`
over `[negPool]`: the negative input is priced without any validation. -/
def negRoute : Route :=
  { steps := [{ dex := .HUMBLE, fromToken := "VOI", toToken := "USDC",
                poolId := "humble-voi-usdc", amountIn := -1000000, amountOut := -998 }],
    totalAmountOut := -998,
    priceImpactPct := 499501/5000,
    feesEstimated := { lpFeePct := 3/10 },
    routeType := .DIRECT }

/-- The quote `getBestQuote("VOI","USDC","-1",50)` returns over `[negPool]`:
a successful quote with a negative output amount. -/
def negQuote : Quote :=
  { amountIn := -1,
    amountOut := -(499/500000),
    path := [{ dex := .HUMBLE, fromToken := "VOI", toToken := "USDC",
               poolId := "humble-voi-usdc" }],
    priceImpactPct := 499501/5000,
    feesEstimated := { lpFeePct := 3/10 },
    warnings := ["High price impact detected"],
    routeType := .DIRECT,
    comparedRoutes := [{ label := "HUMBLE Direct", amountOut := -(499/500000),
                         routeType := .DIRECT }] }

/-- C4's pool: a direct TKA/TKB pool whose tokens have 18 decimals. -/
def pool18 : Pool :=
  { id := "humble-a-b", dex := .HUMBLE, tokenA := tokenTKA, tokenB := tokenTKB,
    reserveA := 1000000000000, reserveB := 1000000000000, feePct := 3/10 }

/-- The route built for `getBestQuote("TKA","TKB","1",50)` over `[pool18]`:
the input is scaled with the hard-coded 6, not the tokens' 18 decimals. -/
def route18 : Route :=
  { steps := [{ dex := .HUMBLE, fromToken := "TKA", toToken := "TKB",
                poolId := "humble-a-b", amountIn := 1000000, amountOut := 997 }],
    totalAmountOut := 997,
    priceImpactPct := 999003/10000,
    feesEstimated := { lpFeePct := 3/10 },
    routeType := .DIRECT }

/-- The quote for `getBestQuote("TKA","TKB","1",50)` over `[pool18]`:
`amountOut` is the winner's output unscaled with the hard-coded 6. -/
def quote18 : Quote :=
  { amountIn := 1,
    amountOut := 997/1000000,
    path := [{ dex := .HUMBLE, fromToken := "TKA", toToken := "TKB",
               poolId := "humble-a-b" }],
    priceImpactPct := 999003/10000,
    feesEstimated := { lpFeePct := 3/10 },
    warnings := ["High price impact detected"],
    routeType := .DIRECT,
    comparedRoutes := [{ label := "HUMBLE Direct", amountOut := 997/1000000,
                         routeType := .DIRECT }] }

/-- C5's snapshot: both adapters carry both legs TKA/USDC and USDC/TKB, and
there is no direct TKA/TKB pool anywhere. -/
def poolsC5 : List Pool :=
  [ { id := "h-a-usdc", dex := .HUMBLE, tokenA := tokenTKA, tokenB := tokenUSDC,
      reserveA := 1000000000000, reserveB := 1000000000000, feePct := 3/10 },
    { id := "h-usdc-b", dex := .HUMBLE, tokenA := tokenUSDC, tokenB := tokenTKB,
      reserveA := 1000000000000, reserveB := 1000000000000, feePct := 3/10 },
    { id := "p-a-usdc", dex := .PACT, tokenA := tokenTKA, tokenB := tokenUSDC,
      reserveA := 1000000000000, reserveB := 1000000000000, feePct := 3/10 },
    { id := "p-usdc-b", dex := .PACT, tokenA := tokenUSDC, tokenB := tokenTKB,
      reserveA := 1000000000000, reserveB := 1000000000000, feePct := 3/10 } ]

/-- The only same-DEX two-hop candidate the router prices over `poolsC5`:
the one on HUMBLE, the first adapter in registry order. -/
def routeC5same : Route :=
  { steps := [{ dex := .HUMBLE, fromToken := "TKA", toToken := "USDC",
                poolId := "h-a-usdc", amountIn := 1000000, amountOut := 997 },
              { dex := .HUMBLE, fromToken := "USDC", toToken := "TKB",
                poolId := "h-usdc-b", amountIn := 997, amountOut := 1 }],
    totalAmountOut := 1,
    priceImpactPct := 999999/10000,
    feesEstimated := { lpFeePct := 3/10 },
    routeType := .TWO_HOP }

/-- The only cross-DEX two-hop candidate the router prices over `poolsC5`:
the first ordered pair (HUMBLE, PACT) in nested-loop order. -/
def routeC5cross : Route :=
  { steps := [{ dex := .HUMBLE, fromToken := "TKA", toToken := "USDC",
                poolId := "h-a-usdc", amountIn := 1000000, amountOut := 997 },
              { dex := .PACT, fromToken := "USDC", toToken := "TKB",
                poolId := "p-usdc-b", amountIn := 997, amountOut := 1 }],
    totalAmountOut := 1,
    priceImpactPct := 999999/10000,
    feesEstimated := { lpFeePct := 3/10 },
    routeType := .TWO_HOP }

/-- The quote over `poolsC5`: only two candidates were priced, although the
PACT same-DEX pair and the (PACT, HUMBLE) cross pair both exist. -/
def quoteC5 : Quote :=
  { amountIn := 1,
    amountOut := 1/1000000,
    path := [{ dex := .HUMBLE, fromToken := "TKA", toToken := "USDC", poolId := "h-a-usdc" },
             { dex := .HUMBLE, fromToken := "USDC", toToken := "TKB", poolId := "h-usdc-b" }],
    priceImpactPct := 999999/10000,
    feesEstimated := { lpFeePct := 3/10 },
    warnings := ["High price impact detected", "Multi-hop route may have higher slippage"],
    routeType := .TWO_HOP,
    comparedRoutes :=
      [{ label := "HUMBLE Two-Hop", amountOut := 1/1000000, routeType := .TWO_HOP },
       { label := "Cross-DEX (HUMBLE → PACT)", amountOut := 1/1000000,
         routeType := .TWO_HOP }] }

/-- C1's first candidate: final output 2^53 base units. -/
def floatRouteA : Route :=
  { steps := [], totalAmountOut := 9007199254740992, priceImpactPct := 0,
    feesEstimated := { lpFeePct := 3/10 }, routeType := .DIRECT }

/-- C1's second candidate: final output 2^53 + 1 base units — one more
than `floatRouteA`, yet the same IEEE-754 binary64 value. -/
def floatRouteB : Route :=
  { steps := [], totalAmountOut := 9007199254740993, priceImpactPct := 0,
    feesEstimated := { lpFeePct := 3/10 }, routeType := .DIRECT }

/-! ## Helper lemmas: the Big.js rounding model -/

lemma roundHalfUp_of_nonneg {x : ℚ} (hx : 0 ≤ x) : roundHalfUp x = ⌊x + 1/2⌋ := by
  rw [roundHalfUp, if_pos hx]

lemma roundHalfUp_nonneg {x : ℚ} (hx : 0 ≤ x) : 0 ≤ roundHalfUp x := by
  rw [roundHalfUp_of_nonneg hx]
  exact Int.le_floor.mpr (by push_cast; linarith)

lemma roundHalfUp_nonpos {x : ℚ} (hx : x < 0) : roundHalfUp x ≤ 0 := by
  rw [roundHalfUp, if_neg (not_le.mpr hx)]
  have : (0 : ℤ) ≤ ⌊-x + 1/2⌋ := Int.le_floor.mpr (by push_cast; linarith)
  omega

lemma roundHalfUp_le_add_half {x : ℚ} (hx : 0 ≤ x) : (roundHalfUp x : ℚ) ≤ x + 1/2 := by
  rw [roundHalfUp_of_nonneg hx]
  exact Int.floor_le _

lemma lt_roundHalfUp_add_half {x : ℚ} (hx : 0 ≤ x) : x - 1/2 < (roundHalfUp x : ℚ) := by
  rw [roundHalfUp_of_nonneg hx]
  have := Int.lt_floor_add_one (x + 1/2)
  linarith

lemma roundHalfUp_intCast (k : ℤ) : roundHalfUp (k : ℚ) = k := by
  rcases le_or_lt 0 (k : ℚ) with h | h
  · rw [roundHalfUp_of_nonneg h, add_comm, Int.floor_add_int]
    norm_num
  · rw [roundHalfUp, if_neg (not_le.mpr h)]
    rw [show (-(k : ℚ) + 1/2) = 1/2 + ((-k : ℤ) : ℚ) by push_cast; ring]
    rw [Int.floor_add_int]
    norm_num

lemma bigDivRound_nonneg {a b : ℚ} (ha : 0 ≤ a) (hb : 0 < b) : 0 ≤ bigDivRound a b := by
  rw [bigDivRound]
  have h : (0 : ℚ) ≤ a / b * 10^18 := by positivity
  have := roundHalfUp_nonneg h
  positivity

lemma bigDivRound_le {a b : ℚ} (ha : 0 ≤ a) (hb : 0 < b) :
    bigDivRound a b ≤ a / b + 1 / (2 * 10^18) := by
  rw [bigDivRound]
  have h : (0 : ℚ) ≤ a / b * 10^18 := by positivity
  have h2 := roundHalfUp_le_add_half h
  rw [div_le_iff₀ (by positivity : (0:ℚ) < 10^18)]
  calc (roundHalfUp (a / b * 10^18) : ℚ) ≤ a / b * 10^18 + 1/2 := h2
    _ = (a / b + 1 / (2 * 10^18)) * 10^18 := by ring

lemma le_bigDivRound {a b : ℚ} (ha : 0 ≤ a) (hb : 0 < b) :
    a / b - 1 / (2 * 10^18) ≤ bigDivRound a b := by
  rw [bigDivRound]
  have h : (0 : ℚ) ≤ a / b * 10^18 := by positivity
  have h2 := lt_roundHalfUp_add_half h
  rw [le_div_iff₀ (by positivity : (0:ℚ) < 10^18)]
  nlinarith

lemma feeMultiplier_nonneg {fee : ℚ} (h1 : fee ≤ 100) :
    0 ≤ bigDivRound (1000 - fee * 10) 1000 :=
  bigDivRound_nonneg (by linarith) (by norm_num)

lemma feeMultiplier_le_one {fee : ℚ} (h0 : 0 ≤ fee) :
    bigDivRound (1000 - fee * 10) 1000 ≤ 1 := by
  rw [bigDivRound]
  set x : ℚ := (1000 - fee * 10) / 1000 * 10^18 with hxdef
  have hx : x ≤ 10^18 := by
    rw [hxdef, div_mul_eq_mul_div, div_le_iff₀ (by norm_num : (0:ℚ) < 1000)]
    nlinarith
  have key : roundHalfUp x ≤ 10^18 := by
    rcases le_or_lt 0 x with h | h
    · have h2 := roundHalfUp_le_add_half h
      have h3 : ((roundHalfUp x : ℤ) : ℚ) < ((10^18 : ℤ) : ℚ) + 1 := by push_cast; linarith
      exact Int.lt_add_one_iff.mp (by exact_mod_cast h3)
    · calc roundHalfUp x ≤ 0 := roundHalfUp_nonpos h
        _ ≤ 10^18 := by norm_num
  rw [div_le_one (by positivity : (0:ℚ) < 10^18)]
  exact_mod_cast key

/-! ## Helper lemmas: the binary64 model at the two C1 magnitudes -/

lemma parseFloatInt_pow53 : parseFloatInt 9007199254740992 = 9007199254740992 := by
  decide

lemma parseFloatInt_pow53_succ : parseFloatInt 9007199254740993 = 9007199254740992 := by
  decide

/-! ## Helper lemmas: token decimals are never consulted by the router -/

lemma filter_dex_map (d : ℕ) (adapter : DexName) (pools : List Pool) :
    (pools.map (setPoolDecimals d)).filter (fun pool => pool.dex == adapter) =
      (pools.filter (fun pool => pool.dex == adapter)).map (setPoolDecimals d) := by
  induction pools with
  | nil => rfl
  | cons p rest ih =>
    simp only [List.map_cons, List.filter_cons]
    rw [show (setPoolDecimals d p).dex = p.dex from rfl]
    cases p.dex == adapter
    · simpa using ih
    · simpa using ih

lemma findDirectPool_map (d : ℕ) (fromAddr toAddr : String) (pools : List Pool) :
    findDirectPool fromAddr toAddr (pools.map (setPoolDecimals d)) =
      (findDirectPool fromAddr toAddr pools).map (setPoolDecimals d) := by
  induction pools with
  | nil => rfl
  | cons p rest ih =>
    have haddrA : (setPoolDecimals d p).tokenA.address = p.tokenA.address := rfl
    have haddrB : (setPoolDecimals d p).tokenB.address = p.tokenB.address := rfl
    simp only [findDirectPool] at ih ⊢
    simp only [List.map_cons, List.find?_cons, haddrA, haddrB]
    cases h : (p.tokenA.address == fromAddr && p.tokenB.address == toAddr ||
        p.tokenA.address == toAddr && p.tokenB.address == fromAddr)
    · simpa using ih
    · rfl

lemma quoteDirect_set (d : ℕ) (adapter : DexName) (fromAddr toAddr : String)
    (amountIn : ℚ) (pools : List Pool) :
    quoteDirect adapter fromAddr toAddr amountIn (pools.map (setPoolDecimals d)) =
      quoteDirect adapter fromAddr toAddr amountIn pools := by
  rw [quoteDirect, quoteDirect, filter_dex_map, findDirectPool_map]
  cases h : findDirectPool fromAddr toAddr (pools.filter (fun pool => pool.dex == adapter)) with
  | none => rfl
  | some pool => rfl

lemma quoteTwoHopAux_set (d : ℕ) (fromAddr intermediate toAddr : String) (amountIn : ℚ)
    (pools : List Pool) : ∀ names : List DexName,
    quoteTwoHopAux fromAddr intermediate toAddr amountIn (pools.map (setPoolDecimals d)) names =
      quoteTwoHopAux fromAddr intermediate toAddr amountIn pools names := by
  intro names
  induction names with
  | nil => rfl
  | cons adapter rest ih =>
    rw [quoteTwoHopAux, quoteTwoHopAux, filter_dex_map, findDirectPool_map, findDirectPool_map]
    cases h1 : findDirectPool fromAddr intermediate
        (pools.filter (fun pool => pool.dex == adapter)) with
    | none => exact ih
    | some firstPool =>
      cases h2 : findDirectPool intermediate toAddr
          (pools.filter (fun pool => pool.dex == adapter)) with
      | none => exact ih
      | some secondPool => rfl

lemma quoteCrossDexAux_set (d : ℕ) (fromAddr intermediate toAddr : String) (amountIn : ℚ)
    (pools : List Pool) : ∀ pairs : List (DexName × DexName),
    quoteCrossDexAux fromAddr intermediate toAddr amountIn
        (pools.map (setPoolDecimals d)) pairs =
      quoteCrossDexAux fromAddr intermediate toAddr amountIn pools pairs := by
  intro pairs
  induction pairs with
  | nil => rfl
  | cons pair rest ih =>
    obtain ⟨firstAdapter, secondAdapter⟩ := pair
    rw [quoteCrossDexAux, quoteCrossDexAux, filter_dex_map, filter_dex_map,
        findDirectPool_map, findDirectPool_map]
    cases h1 : findDirectPool fromAddr intermediate
        (pools.filter (fun pool => pool.dex == firstAdapter)) with
    | none => exact ih
    | some firstPool =>
      cases h2 : findDirectPool intermediate toAddr
          (pools.filter (fun pool => pool.dex == secondAdapter)) with
      | none => exact ih
      | some secondPool => rfl

lemma directRoutes_set (d : ℕ) (fromAddr toAddr : String) (amountIn : ℚ)
    (pools : List Pool) : ∀ names : List DexName,
    directRoutes fromAddr toAddr amountIn (pools.map (setPoolDecimals d)) names =
      directRoutes fromAddr toAddr amountIn pools names := by
  intro names
  induction names with
  | nil => rfl
  | cons adapter rest ih =>
    rw [directRoutes, directRoutes, quoteDirect_set, ih]

lemma twoHopRoutes_set (d : ℕ) (fromAddr toAddr : String) (amountIn : ℚ)
    (pools : List Pool) : ∀ names : List String,
    twoHopRoutes fromAddr toAddr amountIn (pools.map (setPoolDecimals d)) names =
      twoHopRoutes fromAddr toAddr amountIn pools names := by
  intro names
  induction names with
  | nil => rfl
  | cons intermediate rest ih =>
    rw [twoHopRoutes, twoHopRoutes, ih, quoteTwoHop, quoteTwoHop, quoteTwoHopAux_set]

lemma crossDexRoutes_set (d : ℕ) (fromAddr toAddr : String) (amountIn : ℚ)
    (pools : List Pool) : ∀ names : List String,
    crossDexRoutes fromAddr toAddr amountIn (pools.map (setPoolDecimals d)) names =
      crossDexRoutes fromAddr toAddr amountIn pools names := by
  intro names
  induction names with
  | nil => rfl
  | cons intermediate rest ih =>
    rw [crossDexRoutes, crossDexRoutes, ih, quoteCrossDexTwoHop, quoteCrossDexTwoHop,
        quoteCrossDexAux_set]

/-! ## Helper lemmas: candidate counts -/

lemma directRoutes_length (fromAddr toAddr : String) (amountIn : ℚ) (pools : List Pool) :
    ∀ (names : List DexName) (rs : List Route),
      directRoutes fromAddr toAddr amountIn pools names = .ok rs → rs.length ≤ names.length := by
  intro names
  induction names with
  | nil =>
    intro rs h
    rw [directRoutes] at h
    cases h
    simp
  | cons adapter rest ih =>
    intro rs h
    rw [directRoutes] at h
    cases hq : quoteDirect adapter fromAddr toAddr amountIn pools with
    | error e => rw [hq] at h; cases h
    | ok route =>
      rw [hq] at h
      cases hr : directRoutes fromAddr toAddr amountIn pools rest with
      | error e => rw [hr] at h; cases h
      | ok routes =>
        rw [hr] at h
        have hlen := ih routes hr
        cases route with
        | none =>
          cases h
          simp only [List.length_cons]
          omega
        | some r =>
          cases h
          simp only [List.length_cons]
          omega

lemma twoHopRoutes_length (fromAddr toAddr : String) (amountIn : ℚ) (pools : List Pool) :
    ∀ (names : List String) (rs : List Route),
      twoHopRoutes fromAddr toAddr amountIn pools names = .ok rs → rs.length ≤ names.length := by
  intro names
  induction names with
  | nil =>
    intro rs h
    rw [twoHopRoutes] at h
    cases h
    simp
  | cons intermediate rest ih =>
    intro rs h
    rw [twoHopRoutes] at h
    by_cases hskip : (intermediate == fromAddr || intermediate == toAddr) = true
    · rw [if_pos hskip] at h
      have := ih rs h
      simp only [List.length_cons]
      omega
    · rw [if_neg hskip] at h
      cases hq : quoteTwoHop fromAddr intermediate toAddr amountIn pools with
      | error e => rw [hq] at h; cases h
      | ok route =>
        rw [hq] at h
        cases hr : twoHopRoutes fromAddr toAddr amountIn pools rest with
        | error e => rw [hr] at h; cases h
        | ok routes =>
          rw [hr] at h
          have hlen := ih routes hr
          cases route with
          | none =>
            cases h
            simp only [List.length_cons]
            omega
          | some r =>
            cases h
            simp only [List.length_cons]
            omega

lemma crossDexRoutes_length (fromAddr toAddr : String) (amountIn : ℚ) (pools : List Pool) :
    ∀ (names : List String) (rs : List Route),
      crossDexRoutes fromAddr toAddr amountIn pools names = .ok rs →
        rs.length ≤ names.length := by
  intro names
  induction names with
  | nil =>
    intro rs h
    rw [crossDexRoutes] at h
    cases h
    simp
  | cons intermediate rest ih =>
    intro rs h
    rw [crossDexRoutes] at h
    by_cases hskip : (intermediate == fromAddr || intermediate == toAddr) = true
    · rw [if_pos hskip] at h
      have := ih rs h
      simp only [List.length_cons]
      omega
    · rw [if_neg hskip] at h
      cases hq : quoteCrossDexTwoHop fromAddr intermediate toAddr amountIn pools with
      | error e => rw [hq] at h; cases h
      | ok route =>
        rw [hq] at h
        cases hr : crossDexRoutes fromAddr toAddr amountIn pools rest with
        | error e => rw [hr] at h; cases h
        | ok routes =>
          rw [hr] at h
          have hlen := ih routes hr
          cases route with
          | none =>
            cases h
            simp only [List.length_cons]
            omega
          | some r =>
            cases h
            simp only [List.length_cons]
            omega

/-! ## Helper lemmas: the exact price impact in closed form -/

lemma impactExact_formula (a rIn rOut : ℤ) (fee : ℚ) (ha : (0:ℚ) < (a:ℚ))
    (hrIn : (0:ℚ) < (rIn:ℚ)) (hrOut : (0:ℚ) < (rOut:ℚ))
    (hcf : 0 < (1000 - fee * 10) / 1000) :
    priceImpactExact a rIn rOut fee =
      (1 - (1000 - fee * 10) / 1000 * (rIn:ℚ) /
        ((rIn:ℚ) * 1000 + (a:ℚ) * ((1000 - fee * 10) / 1000))) * 100 := by
  have hden : (0:ℚ) < (rIn:ℚ) * 1000 + (a:ℚ) * ((1000 - fee * 10) / 1000) := by positivity
  have ha0 : (a:ℚ) ≠ 0 := ha.ne'
  have hrIn0 : (rIn:ℚ) ≠ 0 := hrIn.ne'
  have hrOut0 : (rOut:ℚ) ≠ 0 := hrOut.ne'
  have hden0 : (rIn:ℚ) * 1000 + (a:ℚ) * ((1000 - fee * 10) / 1000) ≠ 0 := hden.ne'
  have hmid0 : (rOut:ℚ) / (rIn:ℚ) ≠ 0 := by positivity
  simp only [priceImpactExact]
  have hact : (a:ℚ) * ((1000 - fee * 10) / 1000) * (rOut:ℚ) /
      ((rIn:ℚ) * 1000 + (a:ℚ) * ((1000 - fee * 10) / 1000)) / (a:ℚ) =
      (1000 - fee * 10) / 1000 * (rOut:ℚ) /
      ((rIn:ℚ) * 1000 + (a:ℚ) * ((1000 - fee * 10) / 1000)) := by
    rw [div_div]
    rw [show (a:ℚ) * ((1000 - fee * 10) / 1000) * (rOut:ℚ) =
        (a:ℚ) * ((1000 - fee * 10) / 1000 * (rOut:ℚ)) from by ring]
    rw [show ((rIn:ℚ) * 1000 + (a:ℚ) * ((1000 - fee * 10) / 1000)) * (a:ℚ) =
        (a:ℚ) * ((rIn:ℚ) * 1000 + (a:ℚ) * ((1000 - fee * 10) / 1000)) from mul_comm _ _]
    exact mul_div_mul_left _ _ ha0
  rw [hact, sub_div, div_self hmid0]
  have hdiv : (1000 - fee * 10) / 1000 * (rOut:ℚ) /
      ((rIn:ℚ) * 1000 + (a:ℚ) * ((1000 - fee * 10) / 1000)) / ((rOut:ℚ) / (rIn:ℚ)) =
      (1000 - fee * 10) / 1000 * (rIn:ℚ) /
      ((rIn:ℚ) * 1000 + (a:ℚ) * ((1000 - fee * 10) / 1000)) := by
    rw [div_div_eq_mul_div, div_mul_eq_mul_div, div_div]
    rw [show (1000 - fee * 10) / 1000 * (rOut:ℚ) * (rIn:ℚ) =
        (rOut:ℚ) * ((1000 - fee * 10) / 1000 * (rIn:ℚ)) from by ring]
    rw [show ((rIn:ℚ) * 1000 + (a:ℚ) * ((1000 - fee * 10) / 1000)) * (rOut:ℚ) =
        (rOut:ℚ) * ((rIn:ℚ) * 1000 + (a:ℚ) * ((1000 - fee * 10) / 1000)) from mul_comm _ _]
    exact mul_div_mul_left _ _ hrOut0
  rw [hdiv]

/-! ## Helper lemmas: concrete evaluations of the engine -/

set_option maxHeartbeats 1000000

lemma gao_neg : getAmountOut (-1000000) 1000000 1000000 (3/10) = some (-998) := by
  norm_num [getAmountOut, bigDivRound, roundHalfUp]

lemma gpi_neg : getPriceImpact (-1000000) 1000000 1000000 (3/10) = some (499501/5000) := by
  rw [getPriceImpact, gao_neg]
  norm_num [bigDiv, bigDivRound, roundHalfUp]

lemma gao_a : getAmountOut 1000000 1000000000000 1000000000000 (3/10) = some 997 := by
  norm_num [getAmountOut, bigDivRound, roundHalfUp]

lemma gao_b : getAmountOut 997 1000000000000 1000000000000 (3/10) = some 1 := by
  norm_num [getAmountOut, bigDivRound, roundHalfUp]

lemma gpi_18 : getPriceImpact 1000000 1000000000000 1000000000000 (3/10) =
    some (999003/10000) := by
  rw [getPriceImpact, gao_a]
  norm_num [bigDiv, bigDivRound, roundHalfUp]

lemma thpi_C5 : calculateTwoHopPriceImpact 1000000
    ⟨1000000000000, 1000000000000, 3/10⟩ ⟨1000000000000, 1000000000000, 3/10⟩ =
    some (999999/10000) := by
  rw [calculateTwoHopPriceImpact, calculateTwoHopAmountOut]
  rw [show (HopPool.mk 1000000000000 1000000000000 (3/10)).reserveIn = 1000000000000 from rfl,
      show (HopPool.mk 1000000000000 1000000000000 (3/10)).reserveOut = 1000000000000 from rfl,
      show (HopPool.mk 1000000000000 1000000000000 (3/10)).feePct = 3/10 from rfl]
  rw [gao_a]
  norm_num [gao_b, bigDiv, bigDivRound, roundHalfUp]

lemma qd_neg_humble :
    quoteDirect .HUMBLE "VOI" "USDC" (-1) [negPool] = .ok (some negRoute) := by
  rw [quoteDirect]
  norm_num [findDirectPool, negPool, tokenVOI, tokenUSDC, List.filter, List.find?]
  rw [show scaleAmount (-1) 6 = -1000000 by norm_num [scaleAmount, roundHalfUp]]
  norm_num [getPoolReserves, tokenVOI, negPool, gao_neg, gpi_neg, negRoute]

lemma qd_neg_pact :
    quoteDirect .PACT "VOI" "USDC" (-1) [negPool] = .ok none := by
  rw [quoteDirect]
  norm_num [findDirectPool, negPool, tokenVOI, tokenUSDC, List.filter, List.find?]

lemma enum_neg : enumerateRoutes "VOI" "USDC" (-1) [negPool] = .ok [negRoute] := by
  rw [enumerateRoutes, adapters, commonTokens]
  rw [directRoutes, qd_neg_humble, directRoutes, qd_neg_pact, directRoutes]
  rw [twoHopRoutes]
  norm_num
  rw [twoHopRoutes]
  norm_num
  rw [twoHopRoutes, crossDexRoutes]
  norm_num
  rw [crossDexRoutes]
  norm_num
  rw [crossDexRoutes]

lemma gbq_neg : getBestQuote "VOI" "USDC" (-1) 50 [negPool] = .ok negQuote := by
  rw [getBestQuote, enum_neg]
  norm_num [reduceBest, unscaleAmount, bigDivRound, roundHalfUp, negRoute, negQuote,
    getRouteLabel, uniqueDexes, DexName.label, generateWarnings,
    show ("HUMBLE" ++ " Direct" : String) = "HUMBLE Direct" from rfl]

lemma qd_18_humble :
    quoteDirect .HUMBLE "TKA" "TKB" 1 [pool18] = .ok (some route18) := by
  rw [quoteDirect]
  norm_num [findDirectPool, pool18, tokenTKA, tokenTKB, List.filter, List.find?]
  rw [show scaleAmount 1 6 = 1000000 by norm_num [scaleAmount, roundHalfUp]]
  norm_num [getPoolReserves, tokenTKA, pool18, gao_a, gpi_18, route18]

lemma qd_18_pact :
    quoteDirect .PACT "TKA" "TKB" 1 [pool18] = .ok none := by
  rw [quoteDirect]
  norm_num [findDirectPool, pool18, tokenTKA, tokenTKB, List.filter, List.find?]

lemma q2h_18_voi : quoteTwoHop "TKA" "VOI" "TKB" 1 [pool18] = .ok none := by
  simp [quoteTwoHop, adapters, quoteTwoHopAux, findDirectPool, pool18,
    tokenTKA, tokenTKB, List.filter, List.find?]

lemma q2h_18_usdc : quoteTwoHop "TKA" "USDC" "TKB" 1 [pool18] = .ok none := by
  simp [quoteTwoHop, adapters, quoteTwoHopAux, findDirectPool, pool18,
    tokenTKA, tokenTKB, List.filter, List.find?]

lemma qx_18_voi : quoteCrossDexTwoHop "TKA" "VOI" "TKB" 1 [pool18] = .ok none := by
  simp [quoteCrossDexTwoHop, crossDexPairs, adapters, quoteCrossDexAux, findDirectPool,
    pool18, tokenTKA, tokenTKB, List.filter, List.find?]

lemma qx_18_usdc : quoteCrossDexTwoHop "TKA" "USDC" "TKB" 1 [pool18] = .ok none := by
  simp [quoteCrossDexTwoHop, crossDexPairs, adapters, quoteCrossDexAux, findDirectPool,
    pool18, tokenTKA, tokenTKB, List.filter, List.find?]

lemma enum_18 : enumerateRoutes "TKA" "TKB" 1 [pool18] = .ok [route18] := by
  rw [enumerateRoutes, adapters, commonTokens]
  rw [directRoutes, qd_18_humble, directRoutes, qd_18_pact, directRoutes]
  rw [twoHopRoutes]
  simp only [String.reduceBEq, Bool.or_self, Bool.false_eq_true, if_false]
  rw [q2h_18_voi, twoHopRoutes]
  simp only [String.reduceBEq, Bool.or_self, Bool.false_eq_true, if_false]
  rw [q2h_18_usdc, twoHopRoutes, crossDexRoutes]
  simp only [String.reduceBEq, Bool.or_self, Bool.false_eq_true, if_false]
  rw [qx_18_voi, crossDexRoutes]
  simp only [String.reduceBEq, Bool.or_self, Bool.false_eq_true, if_false]
  rw [qx_18_usdc, crossDexRoutes]
  rfl

lemma gbq_18 : getBestQuote "TKA" "TKB" 1 50 [pool18] = .ok quote18 := by
  rw [getBestQuote, enum_18]
  norm_num [reduceBest, unscaleAmount, bigDivRound, roundHalfUp, route18, quote18,
    getRouteLabel, uniqueDexes, DexName.label, generateWarnings,
    show ("HUMBLE" ++ " Direct" : String) = "HUMBLE Direct" from rfl]

lemma qd_C5_humble : quoteDirect .HUMBLE "TKA" "TKB" 1 poolsC5 = .ok none := by
  simp [quoteDirect, findDirectPool, poolsC5, tokenTKA, tokenTKB, tokenUSDC,
    List.filter, List.find?]

lemma qd_C5_pact : quoteDirect .PACT "TKA" "TKB" 1 poolsC5 = .ok none := by
  simp [quoteDirect, findDirectPool, poolsC5, tokenTKA, tokenTKB, tokenUSDC,
    List.filter, List.find?]

lemma q2h_C5_voi : quoteTwoHop "TKA" "VOI" "TKB" 1 poolsC5 = .ok none := by
  simp [quoteTwoHop, adapters, quoteTwoHopAux, findDirectPool, poolsC5,
    tokenTKA, tokenTKB, tokenUSDC, List.filter, List.find?]

lemma qx_C5_voi : quoteCrossDexTwoHop "TKA" "VOI" "TKB" 1 poolsC5 = .ok none := by
  simp [quoteCrossDexTwoHop, crossDexPairs, adapters, quoteCrossDexAux, findDirectPool,
    poolsC5, tokenTKA, tokenTKB, tokenUSDC, List.filter, List.find?]

lemma q2h_C5_usdc : quoteTwoHop "TKA" "USDC" "TKB" 1 poolsC5 = .ok (some routeC5same) := by
  rw [quoteTwoHop, adapters, quoteTwoHopAux]
  simp only [poolsC5, tokenTKA, tokenTKB, tokenUSDC, findDirectPool, getPoolReserves,
    List.filter, List.find?, String.reduceBEq, String.reduceEq, Bool.and_true, Bool.and_false,
    Bool.true_and, Bool.false_and, Bool.or_false, Bool.false_or, Bool.or_true, Bool.true_or,
    beq_self_eq_true, if_true, if_false, cond_true, cond_false, reduceCtorEq, reduceIte]
  rw [show scaleAmount 1 6 = 1000000 by norm_num [scaleAmount, roundHalfUp]]
  rw [gao_a]
  norm_num [gao_b, thpi_C5, routeC5same]

lemma qx_C5_usdc : quoteCrossDexTwoHop "TKA" "USDC" "TKB" 1 poolsC5 =
    .ok (some routeC5cross) := by
  rw [quoteCrossDexTwoHop, crossDexPairs, adapters]
  rw [show ([DexName.HUMBLE, DexName.PACT].flatMap (fun firstAdapter =>
      ([DexName.HUMBLE, DexName.PACT].filter
        (fun secondAdapter => !(firstAdapter == secondAdapter))).map
        (fun secondAdapter => (firstAdapter, secondAdapter)))) =
      [(DexName.HUMBLE, DexName.PACT), (DexName.PACT, DexName.HUMBLE)] from rfl]
  rw [quoteCrossDexAux]
  simp only [poolsC5, tokenTKA, tokenTKB, tokenUSDC, findDirectPool, getPoolReserves,
    List.filter, List.find?, String.reduceBEq, String.reduceEq, Bool.and_true, Bool.and_false,
    Bool.true_and, Bool.false_and, Bool.or_false, Bool.false_or, Bool.or_true, Bool.true_or,
    beq_self_eq_true, if_true, if_false, cond_true, cond_false, reduceCtorEq, reduceIte]
  rw [show scaleAmount 1 6 = 1000000 by norm_num [scaleAmount, roundHalfUp]]
  rw [gao_a]
  norm_num [gao_b, thpi_C5, routeC5cross]

lemma enum_C5 : enumerateRoutes "TKA" "TKB" 1 poolsC5 =
    .ok [routeC5same, routeC5cross] := by
  rw [enumerateRoutes, adapters, commonTokens]
  rw [directRoutes, qd_C5_humble, directRoutes, qd_C5_pact, directRoutes]
  rw [twoHopRoutes]
  simp only [String.reduceBEq, Bool.or_self, Bool.false_eq_true, if_false]
  rw [q2h_C5_voi, twoHopRoutes]
  simp only [String.reduceBEq, Bool.or_self, Bool.false_eq_true, if_false]
  rw [q2h_C5_usdc, twoHopRoutes, crossDexRoutes]
  simp only [String.reduceBEq, Bool.or_self, Bool.false_eq_true, if_false]
  rw [qx_C5_voi, crossDexRoutes]
  simp only [String.reduceBEq, Bool.or_self, Bool.false_eq_true, if_false]
  rw [qx_C5_usdc, crossDexRoutes]
  rfl

lemma gbq_C5 : getBestQuote "TKA" "TKB" 1 50 poolsC5 = .ok quoteC5 := by
  rw [getBestQuote, enum_C5]
  norm_num [reduceBest, parseFloatInt, float64OfNat, unscaleAmount, bigDivRound, roundHalfUp,
    routeC5same, routeC5cross, quoteC5, getRouteLabel, uniqueDexes, DexName.label,
    generateWarnings, List.foldl, List.contains,
    show (DexName.HUMBLE == DexName.HUMBLE) = true from rfl,
    show (DexName.PACT == DexName.HUMBLE) = false from rfl,
    show ("HUMBLE" ++ " Two-Hop" : String) = "HUMBLE Two-Hop" from rfl,
    show (" → ".intercalate ["HUMBLE", "PACT"] : String) = "HUMBLE → PACT" from rfl,
    show ("Cross-DEX (" ++ "HUMBLE → PACT" ++ ")" : String) =
      "Cross-DEX (HUMBLE → PACT)" from rfl]

lemma gbq_zero : getBestQuote "VOI" "USDC" 1 50 [zeroPool] = .error .divisionByZero := by
  norm_num [getBestQuote, enumerateRoutes, directRoutes, twoHopRoutes, crossDexRoutes,
    quoteDirect, quoteTwoHop, quoteTwoHopAux, quoteCrossDexTwoHop, quoteCrossDexAux,
    crossDexPairs, adapters, commonTokens, zeroPool, tokenVOI, tokenUSDC,
    findDirectPool, getPoolReserves, scaleAmount, getAmountOut, getPriceImpact,
    bigDiv, bigDivRound, roundHalfUp, List.find?, List.filter]

/-! ## The claims -/

/-- C1: the claim says `getBestQuote` always returns the candidate with the
greatest final output amount, compared as exact integers and never via
floating point.  The code selects with
`parseFloat(current.totalAmountOut) > parseFloat(best.totalAmountOut)`
(router.ts), and `parseFloat` collapses 2^53 and 2^53 + 1 to the same
binary64 value: with candidates `floatRouteA` (output 9007199254740992)
then `floatRouteB` (output 9007199254740993), the reduce keeps the FIRST
candidate although the second is strictly greater by integer comparison.
This theorem evaluates the code's selection at that failing input. -/
theorem C1_parseFloat_collapses_amounts :
    (reduceBest floatRouteA [floatRouteB]).totalAmountOut = 9007199254740992 ∧
      floatRouteA.totalAmountOut < floatRouteB.totalAmountOut ∧
      parseFloatInt floatRouteB.totalAmountOut = parseFloatInt floatRouteA.totalAmountOut :=
  ⟨by decide, by decide, by decide⟩

/-- C2: the claim says a pool with a zero reserve is never selected and
never crashes route enumeration.  In the code, `quoteDirect` prices the
zero-reserve pool anyway and then `getPriceImpact` divides
`reserveOut / reserveIn` with `reserveIn = 0`; `Big.js` throws
`"Division by zero"` and the whole `getBestQuote` call crashes.  This
theorem evaluates the code at that failing input. -/
theorem C2_zero_reserve_pool_crashes_quote :
    zeroPool.reserveA = 0 ∧
      getBestQuote "VOI" "USDC" 1 50 [zeroPool] = .error .divisionByZero :=
  ⟨rfl, gbq_zero⟩

/-- C3: the claim says `getAmountOut` with `amountIn > 0` and a zero
reserve fails with `InsufficientLiquidity`.  No such check (or error
class) exists anywhere in the code: with `reserveIn = 0` the function
returns the entire output-side reserve (here `"5000"`), and with
`reserveOut = 0` it returns `"0"` — numeric results in both cases.  This
theorem evaluates the code at those failing inputs. -/
theorem C3_zero_reserves_yield_numbers :
    getAmountOut 100 0 5000 (3/10) = some 5000 ∧
      getAmountOut 100 5000 0 (3/10) = some 0 := by
  constructor
  · norm_num [getAmountOut, bigDivRound, roundHalfUp]
  · norm_num [getAmountOut, bigDivRound, roundHalfUp]

/-- C4 (amended): the router scales the input and unscales the output with
a hard-coded 6-decimal precision (`// Assuming 6 decimals` in router.ts) —
token decimals are never consulted.  Formally: rewriting every token's
`decimals` field to an arbitrary value leaves the entire `getBestQuote`
result unchanged. -/
theorem C4_router_ignores_token_decimals (d : ℕ) (fromAddr toAddr : String)
    (amountIn : ℚ) (slippageBps : ℤ) (pools : List Pool) :
    getBestQuote fromAddr toAddr amountIn slippageBps (pools.map (setPoolDecimals d)) =
      getBestQuote fromAddr toAddr amountIn slippageBps pools := by
  rw [getBestQuote, getBestQuote, enumerateRoutes, enumerateRoutes,
      directRoutes_set, twoHopRoutes_set, crossDexRoutes_set]

/-- C4 counterexample: over a pool whose two tokens both have 18 decimals,
the route step's input is `scaleAmount 1 6` (not `scaleAmount 1 18`), and
the quote's `amountOut` is the winner's output unscaled with 6, which
differs from unscaling with the `to` token's 18 decimals — refuting the
claim that the from/to tokens' decimal precisions are used. -/
theorem C4_counterexample :
    pool18.tokenA.decimals = 18 ∧ pool18.tokenB.decimals = 18 ∧
      quoteDirect DexName.HUMBLE "TKA" "TKB" 1 [pool18] = .ok (some route18) ∧
      route18.steps.map (fun s => s.amountIn) = [scaleAmount 1 6] ∧
      scaleAmount 1 pool18.tokenA.decimals ≠ scaleAmount 1 6 ∧
      getBestQuote "TKA" "TKB" 1 50 [pool18] = .ok quote18 ∧
      quote18.amountOut = unscaleAmount ((997 : ℤ) : ℚ) 6 ∧
      unscaleAmount ((997 : ℤ) : ℚ) pool18.tokenB.decimals ≠ quote18.amountOut := by
  refine ⟨rfl, rfl, qd_18_humble, ?_, ?_, gbq_18, ?_, ?_⟩
  · norm_num [route18, scaleAmount, roundHalfUp]
  · norm_num [pool18, tokenTKA, scaleAmount, roundHalfUp]
  · norm_num [quote18, unscaleAmount, bigDivRound, roundHalfUp]
  · norm_num [pool18, tokenTKB, quote18, unscaleAmount, bigDivRound, roundHalfUp]

/-- C5 (amended): per allowed intermediate the router prices AT MOST one
same-DEX two-hop candidate (the first adapter in registry order with both
legs) and at most one cross-DEX candidate (the first ordered adapter pair
in nested-loop order), so a successful quote carries one `comparedRoutes`
entry per priced candidate and at most
`#adapters + 2 · #intermediates` candidates in total. -/
theorem C5_compared_routes_bound (fromAddr toAddr : String) (amountIn : ℚ)
    (slippageBps : ℤ) (pools : List Pool) (rs : List Route) (q : Quote)
    (hr : enumerateRoutes fromAddr toAddr amountIn pools = .ok rs)
    (hq : getBestQuote fromAddr toAddr amountIn slippageBps pools = .ok q) :
    q.comparedRoutes.length = rs.length ∧
      rs.length ≤ adapters.length + 2 * commonTokens.length := by
  constructor
  · rw [getBestQuote, hr] at hq
    cases rs with
    | nil => cases hq
    | cons first rest =>
      cases hq
      simp
  · rw [enumerateRoutes] at hr
    cases h1 : directRoutes fromAddr toAddr amountIn pools adapters with
    | error e => rw [h1] at hr; cases hr
    | ok direct =>
      rw [h1] at hr
      cases h2 : twoHopRoutes fromAddr toAddr amountIn pools commonTokens with
      | error e => rw [h2] at hr; cases hr
      | ok sameDex =>
        rw [h2] at hr
        cases h3 : crossDexRoutes fromAddr toAddr amountIn pools commonTokens with
        | error e => rw [h3] at hr; cases hr
        | ok crossDex =>
          rw [h3] at hr
          cases hr
          have l1 := directRoutes_length fromAddr toAddr amountIn pools adapters direct h1
          have l2 := twoHopRoutes_length fromAddr toAddr amountIn pools commonTokens
            sameDex h2
          have l3 := crossDexRoutes_length fromAddr toAddr amountIn pools commonTokens
            crossDex h3
          simp only [List.length_append]
          omega

/-- C5 witness: the amended bound discharged at the `negPool` snapshot. -/
theorem C5_witness :
    negQuote.comparedRoutes.length = [negRoute].length ∧
      [negRoute].length ≤ adapters.length + 2 * commonTokens.length :=
  C5_compared_routes_bound "VOI" "USDC" (-1) 50 [negPool] [negRoute] negQuote
    enum_neg gbq_neg

/-- C5 counterexample: over `poolsC5`, the PACT adapter has both legs
TKA→USDC and USDC→TKB, yet the quote's `comparedRoutes` holds exactly two
entries — the HUMBLE same-DEX two-hop and the (HUMBLE → PACT) cross pair —
refuting the claim that one candidate is priced for EACH adapter and each
ordered adapter pair with both legs present (which would have been four). -/
theorem C5_counterexample :
    (findDirectPool "TKA" "USDC"
        (poolsC5.filter (fun pool => pool.dex == DexName.PACT))).isSome = true ∧
      (findDirectPool "USDC" "TKB"
        (poolsC5.filter (fun pool => pool.dex == DexName.PACT))).isSome = true ∧
      getBestQuote "TKA" "TKB" 1 50 poolsC5 = .ok quoteC5 ∧
      quoteC5.comparedRoutes.map (fun c => c.label) =
        ["HUMBLE Two-Hop", "Cross-DEX (HUMBLE → PACT)"] ∧
      quoteC5.comparedRoutes.length = 2 := by
  refine ⟨?_, ?_, gbq_C5, ?_, ?_⟩
  · simp [findDirectPool, poolsC5, tokenTKA, tokenTKB, tokenUSDC, List.filter, List.find?]
  · simp [findDirectPool, poolsC5, tokenTKA, tokenTKB, tokenUSDC, List.filter, List.find?]
  · rfl
  · rfl

/-- C6 (amended): for positive amount and reserves and a sane fee
percentage, `getAmountOut` succeeds with an output that is nonnegative and
strictly below the no-fee infinite-liquidity ideal
`amountIn · reserveOut / reserveIn`.  The final step, however, is Big.js
`toFixed(0)` under `RM = roundHalfUp` applied after the quotient is
rounded to 18 decimal places — rounding half-up, not truncation (see the
counterexample). -/
theorem C6_output_bounds (a rIn rOut : ℤ) (fee : ℚ) (ha : 0 < a) (hrIn : 0 < rIn)
    (hrOut : 0 < rOut) (hf0 : 0 ≤ fee) (hf1 : fee ≤ 100) :
    ∃ n : ℤ, getAmountOut a rIn rOut fee = some n ∧ 0 ≤ n ∧
      (n : ℚ) < (a : ℚ) * (rOut : ℚ) / (rIn : ℚ) := by
  have haq : (0 : ℚ) < (a : ℚ) := by exact_mod_cast ha
  have hrInq : (1 : ℚ) ≤ (rIn : ℚ) := by exact_mod_cast hrIn
  have hrInq0 : (0 : ℚ) < (rIn : ℚ) := by linarith
  have hrOutq : (0 : ℚ) < (rOut : ℚ) := by exact_mod_cast hrOut
  set c : ℚ := bigDivRound (1000 - fee * 10) 1000 with hcdef
  have hc0 : 0 ≤ c := feeMultiplier_nonneg hf1
  have hc1 : c ≤ 1 := feeMultiplier_le_one hf0
  set N : ℚ := (a : ℚ) * c * (rOut : ℚ) with hNdef
  set D : ℚ := (rIn : ℚ) * 1000 + (a : ℚ) * c with hDdef
  have hN0 : 0 ≤ N := by positivity
  have hD0 : (0 : ℚ) < D := by nlinarith
  have hDne : ¬ D = 0 := ne_of_gt hD0
  rw [getAmountOut]
  rw [if_neg hDne]
  set q : ℚ := bigDivRound N D with hqdef
  have hq0 : 0 ≤ q := bigDivRound_nonneg hN0 hD0
  refine ⟨roundHalfUp q, rfl, roundHalfUp_nonneg hq0, ?_⟩
  set I : ℚ := (a : ℚ) * (rOut : ℚ) / (rIn : ℚ) with hIdef
  have hI0 : 0 < I := by positivity
  have hq_le : q ≤ N / D + 1 / (2 * 10^18) := bigDivRound_le hN0 hD0
  have hq_ge : N / D - 1 / (2 * 10^18) ≤ q := le_bigDivRound hN0 hD0
  have hND_le : N / D ≤ I / 1000 := by
    rw [hIdef, div_div]
    calc N / D ≤ N / ((rIn : ℚ) * 1000) := by
          gcongr
          rw [hDdef]
          nlinarith
      _ ≤ (a : ℚ) * (rOut : ℚ) / ((rIn : ℚ) * 1000) := by
          gcongr
          rw [hNdef]
          nlinarith [mul_nonneg (mul_nonneg haq.le hrOutq.le) (sub_nonneg.mpr hc1)]
  have hn_le : (roundHalfUp q : ℚ) ≤ q + 1/2 := roundHalfUp_le_add_half hq0
  rcases le_or_lt (roundHalfUp q) 0 with hn | hn
  · have : ((roundHalfUp q : ℤ) : ℚ) ≤ 0 := by exact_mod_cast hn
    linarith
  · have h1n : (1 : ℚ) ≤ ((roundHalfUp q : ℤ) : ℚ) := by exact_mod_cast hn
    have hqhalf : 1/2 ≤ q := by linarith
    have hI499 : 499 ≤ I := by
      have : 1/2 - 1 / (2 * 10^18) ≤ I / 1000 := by linarith
      linarith
    linarith

/-- C6 witness: the bounds discharged at `getAmountOut(1000, 1, 2, 0.3)`. -/
theorem C6_witness :
    (0 : ℤ) < 1000 ∧ (0 : ℤ) < 1 ∧ (0 : ℤ) < 2 ∧ (0 : ℚ) ≤ 3/10 ∧ (3/10 : ℚ) ≤ 100 ∧
      (∃ n : ℤ, getAmountOut 1000 1 2 (3/10) = some n ∧ 0 ≤ n ∧
        (n : ℚ) < ((1000 : ℤ) : ℚ) * ((2 : ℤ) : ℚ) / ((1 : ℤ) : ℚ)) :=
  ⟨by norm_num, by norm_num, by norm_num, by norm_num, by norm_num,
    C6_output_bounds 1000 1 2 (3/10) (by norm_num) (by norm_num) (by norm_num)
      (by norm_num) (by norm_num)⟩

/-- C6 counterexample: at `getAmountOut(1000, 1, 2, 0.3)` the exact
quotient is 1994/1997 ≈ 0.9985; its truncation (the spec's stated rounding)
is 0, yet the code returns 1 — the final step rounds half-up, it does not
truncate. -/
theorem C6_counterexample :
    getAmountOut 1000 1 2 (3/10) = some 1 ∧
      (⌊(1000 * ((1000 - (3/10 : ℚ) * 10) / 1000) * 2) /
        (1 * 1000 + 1000 * ((1000 - (3/10 : ℚ) * 10) / 1000))⌋ : ℤ) = 0 ∧
      (1 : ℤ) ≠ 0 := by
  refine ⟨?_, ?_, ?_⟩
  · norm_num [getAmountOut, bigDivRound, roundHalfUp]
  · norm_num
  · norm_num

/-- C7 (amended): the EXACT price impact — the §4.2 formula evaluated
without the 18-decimal-place division rounding and without rounding the
output to a whole base unit — is strictly increasing in `amountIn` for
fixed positive reserves and a fee below 100%.  The implemented
`getPriceImpact` is NOT strictly increasing: rounding `amountOut` to an
integer makes it plateau (at 100 while the output rounds to 0) and even
decrease across a rounding boundary (see the counterexample). -/
theorem C7_exact_impact_strictly_increasing (a1 a2 rIn rOut : ℤ) (fee : ℚ)
    (h1 : 0 < a1) (h12 : a1 < a2) (hrIn : 0 < rIn) (hrOut : 0 < rOut)
    (hf0 : 0 ≤ fee) (hf1 : fee < 100) :
    priceImpactExact a1 rIn rOut fee < priceImpactExact a2 rIn rOut fee := by
  have hcf : 0 < (1000 - fee * 10) / 1000 := by
    apply div_pos (by linarith) (by norm_num)
  have ha1 : (0:ℚ) < (a1:ℚ) := by exact_mod_cast h1
  have ha2 : (0:ℚ) < (a2:ℚ) := by
    have : (0:ℤ) < a2 := lt_trans h1 h12
    exact_mod_cast this
  have ha12 : (a1:ℚ) < (a2:ℚ) := by exact_mod_cast h12
  have hrInq : (0:ℚ) < (rIn:ℚ) := by exact_mod_cast hrIn
  have hrOutq : (0:ℚ) < (rOut:ℚ) := by exact_mod_cast hrOut
  rw [impactExact_formula a1 rIn rOut fee ha1 hrInq hrOutq hcf,
      impactExact_formula a2 rIn rOut fee ha2 hrInq hrOutq hcf]
  have hnum : (0:ℚ) < (1000 - fee * 10) / 1000 * (rIn:ℚ) := by positivity
  have hden1 : (0:ℚ) < (rIn:ℚ) * 1000 + (a1:ℚ) * ((1000 - fee * 10) / 1000) := by positivity
  have hden2 : (0:ℚ) < (rIn:ℚ) * 1000 + (a2:ℚ) * ((1000 - fee * 10) / 1000) := by positivity
  have hdlt : (rIn:ℚ) * 1000 + (a1:ℚ) * ((1000 - fee * 10) / 1000) <
      (rIn:ℚ) * 1000 + (a2:ℚ) * ((1000 - fee * 10) / 1000) := by nlinarith
  have key := (div_lt_div_iff_of_pos_left hnum hden2 hden1).mpr hdlt
  linarith

/-- C7 witness: exact-impact monotonicity discharged at amounts 501 < 502
against reserves 1000/1000 with a 0.3% fee. -/
theorem C7_witness :
    (0 : ℤ) < 501 ∧ (501 : ℤ) < 502 ∧ (0 : ℤ) < 1000 ∧ (0 : ℤ) < 1000 ∧
      (0 : ℚ) ≤ 3/10 ∧ (3/10 : ℚ) < 100 ∧
      priceImpactExact 501 1000 1000 (3/10) < priceImpactExact 502 1000 1000 (3/10) :=
  ⟨by norm_num, by norm_num, by norm_num, by norm_num, by norm_num, by norm_num,
    C7_exact_impact_strictly_increasing 501 502 1000 1000 (3/10) (by norm_num)
      (by norm_num) (by norm_num) (by norm_num) (by norm_num) (by norm_num)⟩

/-- C7 counterexample: with fixed reserves 1000/1000 and fee 0.3%, the
implemented `getPriceImpact` returns 100 at `amountIn = 501` (the rounded
output is 0) and ≈ 99.8 at `amountIn = 502` (the output rounds up to 1):
the value DECREASES as `amountIn` increases, refuting strict
monotonicity of the implemented function. -/
theorem C7_counterexample :
    getPriceImpact 501 1000 1000 (3/10) = some 100 ∧
      (getPriceImpact 502 1000 1000 (3/10)).getD 0 < 100 ∧
      (getPriceImpact 502 1000 1000 (3/10)).isSome = true := by
  refine ⟨?_, ?_, ?_⟩ <;>
    norm_num [getPriceImpact, getAmountOut, bigDiv, bigDivRound, roundHalfUp]

/-- C8 (amended): the scale/unscale pair round-trips exactly on the decimal
strings with AT MOST `d` fractional digits (values `x` with `x · 10^d`
integral), for every `d` in {0, 6, 8, 18}.  For inputs with more
fractional digits than `d`, `scale` rounds half-up and the round-trip
fails (see the counterexample). -/
theorem C8_roundtrip (x : ℚ) (d : ℕ) (hd : d = 0 ∨ d = 6 ∨ d = 8 ∨ d = 18)
    (hx : ∃ k : ℤ, x * 10^d = (k : ℚ)) :
    unscaleAmount ((scaleAmount x d : ℤ) : ℚ) d = x := by
  obtain ⟨k, hk⟩ := hx
  have hscale : scaleAmount x d = k := by
    rw [scaleAmount, hk, roundHalfUp_intCast]
  rw [hscale]
  have hxk : x = (k : ℚ) / 10^d := by
    rw [← hk]
    field_simp
  rw [unscaleAmount, bigDivRound, hxk]
  have hd18 : d ≤ 18 := by rcases hd with rfl | rfl | rfl | rfl <;> norm_num
  have hpow : (10:ℚ)^18 = 10^d * 10^(18 - d) := by
    rw [← pow_add]
    congr 1
    omega
  have harg : (k : ℚ) / 10^d * 10^18 = ((k * 10^(18 - d) : ℤ) : ℚ) := by
    rw [hpow]
    push_cast
    field_simp
    ring
  rw [harg, roundHalfUp_intCast]
  push_cast
  rw [hpow]
  field_simp
  ring

/-- C8 witness: the round-trip discharged at `x = 1.5`, `d = 6`. -/
theorem C8_witness :
    ((6 : ℕ) = 0 ∨ (6 : ℕ) = 6 ∨ (6 : ℕ) = 8 ∨ (6 : ℕ) = 18) ∧
      (∃ k : ℤ, (3/2 : ℚ) * 10^6 = (k : ℚ)) ∧
      unscaleAmount ((scaleAmount (3/2) 6 : ℤ) : ℚ) 6 = (3/2 : ℚ) :=
  ⟨by norm_num, ⟨1500000, by norm_num⟩,
    C8_roundtrip (3/2) 6 (by norm_num) ⟨1500000, by norm_num⟩⟩

/-- C8 counterexample: the canonical decimal string "0.5" with `d = 0`:
`scale` rounds half-up to "1" and `unscale("1", 0) = "1" ≠ "0.5"` — the
round-trip fails for canonical strings with more fractional digits than
`d`, refuting the claim as stated for every canonical decimal string. -/
theorem C8_counterexample :
    unscaleAmount ((scaleAmount (1/2) 0 : ℤ) : ℚ) 0 ≠ (1/2 : ℚ) := by
  norm_num [unscaleAmount, scaleAmount, bigDivRound, roundHalfUp]

/-- C9: the claim says non-numeric or negative amounts raise
`InvalidAmount` before any pricing call, and in particular a negative
`amountIn` to `getBestQuote` fails rather than producing a quote.  No
validation of any kind exists in the code: `getBestQuote("VOI", "USDC",
"-1", 50)` over an ordinary pool succeeds and returns a quote whose
`amountIn` and `amountOut` are negative.  This theorem evaluates the code
at that failing input. -/
theorem C9_negative_amount_is_quoted :
    getBestQuote "VOI" "USDC" (-1) 50 [negPool] = .ok negQuote ∧
      negQuote.amountOut < 0 ∧ negQuote.amountIn < 0 := by
  refine ⟨gbq_neg, ?_, ?_⟩
  · norm_num [negQuote]
  · norm_num [negQuote]

/-- C10: for every nonnegative input, positive input-side reserve,
nonnegative output-side reserve and sane fee percentage, `getAmountOut`
succeeds and its output never exceeds the pool's output-side reserve. -/
theorem C10_output_at_most_reserve (a rIn rOut : ℤ) (fee : ℚ) (ha : 0 ≤ a)
    (hrIn : 0 < rIn) (hrOut : 0 ≤ rOut) (hf0 : 0 ≤ fee) (hf1 : fee ≤ 100) :
    ∃ n : ℤ, getAmountOut a rIn rOut fee = some n ∧ 0 ≤ n ∧ n ≤ rOut := by
  have haq : (0 : ℚ) ≤ (a : ℚ) := by exact_mod_cast ha
  have hrInq : (1 : ℚ) ≤ (rIn : ℚ) := by exact_mod_cast hrIn
  have hrInq0 : (0 : ℚ) < (rIn : ℚ) := by linarith
  have hrOutq : (0 : ℚ) ≤ (rOut : ℚ) := by exact_mod_cast hrOut
  set c : ℚ := bigDivRound (1000 - fee * 10) 1000 with hcdef
  have hc0 : 0 ≤ c := feeMultiplier_nonneg hf1
  have hc1 : c ≤ 1 := feeMultiplier_le_one hf0
  set N : ℚ := (a : ℚ) * c * (rOut : ℚ) with hNdef
  set D : ℚ := (rIn : ℚ) * 1000 + (a : ℚ) * c with hDdef
  have hN0 : 0 ≤ N := by positivity
  have hD0 : (0 : ℚ) < D := by nlinarith
  have hDne : ¬ D = 0 := ne_of_gt hD0
  rw [getAmountOut]
  rw [if_neg hDne]
  set q : ℚ := bigDivRound N D with hqdef
  have hq0 : 0 ≤ q := bigDivRound_nonneg hN0 hD0
  refine ⟨roundHalfUp q, rfl, roundHalfUp_nonneg hq0, ?_⟩
  have hq_le : q ≤ N / D + 1 / (2 * 10^18) := bigDivRound_le hN0 hD0
  have hND_le : N / D ≤ (rOut : ℚ) := by
    rw [div_le_iff₀ hD0]
    rw [hNdef, hDdef]
    nlinarith
  have hn_le : (roundHalfUp q : ℚ) ≤ q + 1/2 := roundHalfUp_le_add_half hq0
  have hlt : ((roundHalfUp q : ℤ) : ℚ) < ((rOut : ℤ) : ℚ) + 1 := by linarith
  exact Int.lt_add_one_iff.mp (by exact_mod_cast hlt)

/-- C10 witness: the reserve bound discharged at
`getAmountOut(100, 10, 50, 0.3)`. -/
theorem C10_witness :
    (0 : ℤ) ≤ 100 ∧ (0 : ℤ) < 10 ∧ (0 : ℤ) ≤ 50 ∧ (0 : ℚ) ≤ 3/10 ∧ (3/10 : ℚ) ≤ 100 ∧
      (∃ n : ℤ, getAmountOut 100 10 50 (3/10) = some n ∧ 0 ≤ n ∧ n ≤ 50) :=
  ⟨by norm_num, by norm_num, by norm_num, by norm_num, by norm_num,
    C10_output_at_most_reserve 100 10 50 (3/10) (by norm_num) (by norm_num)
      (by norm_num) (by norm_num) (by norm_num)⟩

end Ally
